import Mathlib

/-!
Verification of the admin-panel client `src/web/static/app.js` of the
tg-zodiac repository.

The file is a shallow embedding: each JavaScript function relevant to the
claims is translated into a Lean definition over explicit inputs (DOM form
values, parsed HTTP responses, confirmation outcomes), and the theorems at
the end of the file settle the claims against those definitions.

Modelling conventions:
* JavaScript strings are Lean `String`s; the string primitives used by the
  source (`trim`, `toLowerCase`, `includes`, `replaceAll` on single
  characters) are defined below over the character list of the string.
* JSON values are the inductive `Json`; `JSON.parse` failure is `Option`.
* Promises are `Except String`: `.error` is a rejection carrying the
  error message.
* The DOM is modelled only as far as the claims need it: a document is the
  list of element ids attached to `document.body` (for modal dialogs), and
  rendered views are the template strings the source builds (HTML is
  transcribed with the markup condensed to its structurally relevant
  parts; insignificant whitespace between tags is dropped).
* JavaScript numbers that the source only increments/decrements and clamps
  at zero (`Math.max(0, c - 1)`) are `Nat`, whose truncated subtraction is
  exactly that clamp for non-negative counts.
-/

namespace AdminApp

/-! ## JavaScript string and object primitives -/

/-- JS `String.prototype.trim`: strip leading and trailing whitespace. -/
def jsTrim (s : String) : String :=
  ⟨((s.data.dropWhile Char.isWhitespace).reverse.dropWhile Char.isWhitespace).reverse⟩

/-- JS `String.prototype.toLowerCase` (character-wise lowering). -/
def jsToLower (s : String) : String :=
  ⟨s.data.map Char.toLower⟩

/-- JS `hay.includes(needle)`: substring containment. -/
def jsIncludes (hay needle : String) : Bool :=
  decide (needle.data <:+: hay.data)

/-- JS `String.prototype.replaceAll` for a single-character pattern. -/
def jsReplaceAllChar (c : Char) (rep : List Char) : List Char → List Char
  | [] => []
  | x :: xs => (if x = c then rep else [x]) ++ jsReplaceAllChar c rep xs

/-- JS object property assignment `o[k] = v` on a string-valued object,
modelled as an association list without duplicate keys (assignment
overwrites in place, otherwise appends). -/
def jsObjSet (o : List (String × String)) (k v : String) : List (String × String) :=
  if o.any (fun kv => kv.1 == k) then
    o.map (fun kv => if kv.1 == k then (k, v) else kv)
  else
    o ++ [(k, v)]

/-- JS object property read `o[k]` on a string-valued object
(`none` plays the role of `undefined`). -/
def jsObjGet (o : List (String × String)) (k : String) : Option String :=
  (o.find? (fun kv => kv.1 == k)).map Prod.snd

/-- The apostrophe character (singled out to keep the source readable). -/
def aposChar : Char := Char.ofNat 39

/-! ## `escapeHtml` (app.js lines 435-443)

```js
function escapeHtml(str) {
    if (str === null || str === undefined) return '';
    return String(str)
        .replaceAll('&', '&amp;')
        .replaceAll('<', '&lt;')
        .replaceAll('>', '&gt;')
        .replaceAll('"', '&quot;')
        .replaceAll("'", '&#39;');
}
```
-/

/-- A JS value reaching `escapeHtml`: `null`, `undefined`, or a string
(other values pass through `String(str)` and behave as their string form). -/
inductive JsStr where
  | nullv
  | undef
  | str (s : String)

/-- The five replacements of `escapeHtml` in source order, ampersand
first, on the character list of the string. -/
def escapeHtmlData (l : List Char) : List Char :=
  jsReplaceAllChar aposChar "&#39;".data
    (jsReplaceAllChar '"' "&quot;".data
      (jsReplaceAllChar '>' "&gt;".data
        (jsReplaceAllChar '<' "&lt;".data
          (jsReplaceAllChar '&' "&amp;".data l))))

/-- `escapeHtml` from the source: `null`/`undefined` become the empty
string, otherwise the five replacements run in source order. -/
def escapeHtml : JsStr → String
  | .nullv => ""
  | .undef => ""
  | .str s => ⟨escapeHtmlData s.data⟩

/-- Single-pass character escaping; the theorems show the sequential
`replaceAll` chain of the source computes exactly this map. -/
def escapeHtmlChar (c : Char) : List Char :=
  if c = '&' then "&amp;".data
  else if c = '<' then "&lt;".data
  else if c = '>' then "&gt;".data
  else if c = '"' then "&quot;".data
  else if c = aposChar then "&#39;".data
  else [c]

/-! ## List search filters (app.js lines 317-329, 1280-1291, 2649-2661)

All three handlers (quiz, raffle, dice) are the same code up to attribute
names:

```js
const q = (searchEl.value || '').trim().toLowerCase();
items.forEach(it => {
    const d = (it.getAttribute('data-quiz-date') || '').toLowerCase();
    const t = (it.getAttribute('data-quiz-title') || '').toLowerCase();
    const ok = !q || d.includes(q) || t.includes(q);
    it.style.display = ok ? '' : 'none';
});
```
-/

/-- One row of an admin list: the key attribute (date or dice id) and the
title attribute carried on the row element. -/
structure AdminListItem where
  key : String
  title : String
deriving DecidableEq

/-- The per-row visibility computed by the search input handler. -/
def searchFilterVisible (q : String) (it : AdminListItem) : Bool :=
  let qq := jsToLower (jsTrim q)
  (qq == "") || jsIncludes (jsToLower it.key) qq || jsIncludes (jsToLower it.title) qq

/-- The whole input-event handler: every row is assigned its visibility. -/
def applySearchFilter (q : String) (items : List AdminListItem) : List (AdminListItem × Bool) :=
  items.map (fun it => (it, searchFilterVisible q it))

/-- Visibility as the claim words it: the item is shown exactly when its
key or title contains `q` case-insensitively, and an empty `q` shows
everything.  (Spec-side definition, for comparison with the code.) -/
def claimVisible (q : String) (it : AdminListItem) : Bool :=
  (q == "") || jsIncludes (jsToLower it.key) (jsToLower q)
    || jsIncludes (jsToLower it.title) (jsToLower q)

/-! ## JSON values and `apiFetch` (app.js lines 92-108)

```js
async function apiFetch(endpoint, options = {}) {
    const response = await fetch(..., { ... });
    if (!response.ok) {
        const error = await response.json().catch(() => ({ detail: response.statusText }));
        throw new Error(error.detail || 'Ошибка запроса');
    }
    return response.json();
}
```
-/

/-- A JSON value as produced by `response.json()`. -/
inductive Json where
  | null
  | bool (b : Bool)
  | num (n : Int)
  | str (s : String)
  | arr (elems : List Json)
  | obj (fields : List (String × Json))

mutual

/-- JS `String(v)` on a parsed JSON value (applied by `new Error(...)`
when the message is not already a string). -/
def Json.toJsString : Json → String
  | .null => "null"
  | .bool true => "true"
  | .bool false => "false"
  | .num n => toString n
  | .str s => s
  | .arr xs => String.intercalate "," (Json.arrElemStrings xs)
  | .obj _ => "[object Object]"

/-- JS `Array.prototype.join(',')` element strings: `null` elements
become the empty string. -/
def Json.arrElemStrings : List Json → List String
  | [] => []
  | .null :: xs => "" :: Json.arrElemStrings xs
  | x :: xs => x.toJsString :: Json.arrElemStrings xs

end

/-- JS property access `v.detail` on a parsed JSON value: defined on
objects (JSON.parse keeps the last duplicate key), `undefined` otherwise. -/
def Json.getProp : Json → String → Option Json
  | .obj fields, k => (fields.reverse.find? (fun kv => kv.1 == k)).map Prod.snd
  | _, _ => none

/-- JS truthiness of a parsed JSON value. -/
def Json.truthy : Json → Bool
  | .null => false
  | .bool b => b
  | .num n => n != 0
  | .str s => s != ""
  | .arr _ => true
  | .obj _ => true

/-- An HTTP response as `apiFetch` observes it: status, status text, and
the body as JSON when it parses (`none` when `response.json()` rejects). -/
structure HttpResponse where
  status : Nat
  statusText : String
  body : Option Json

/-- `response.ok`: status in the inclusive range 200-299. -/
def HttpResponse.ok (r : HttpResponse) : Bool :=
  (200 ≤ r.status) && (r.status ≤ 299)

/-- The settled state of the promise returned by `apiFetch`. -/
inductive FetchResult where
  | resolved (v : Json)
  | rejected (message : String)

/-- The engine-defined message of the `SyntaxError` thrown by
`response.json()` on a body that is not valid JSON. -/
def jsonReadFailureMessage : String := "Unexpected end of JSON input"

/-- `new Error(error.detail || 'Ошибка запроса')`: the message built from
the parsed (or defaulted) error body. -/
def apiFetchErrorMessage (error : Json) : String :=
  match error.getProp "detail" with
  | some d => if d.truthy then d.toJsString else "Ошибка запроса"
  | none => "Ошибка запроса"

/-- `apiFetch` from the source, as a function of the observed response. -/
def apiFetch (r : HttpResponse) : FetchResult :=
  if r.ok then
    match r.body with
    | some v => .resolved v
    | none => .rejected jsonReadFailureMessage
  else
    .rejected (apiFetchErrorMessage
      (match r.body with
       | some v => v
       | none => .obj [("detail", .str r.statusText)]))

/-! ## Global loading counter (app.js lines 6, 27-36, 69-81)

```js
let _loadingCount = 0;
function setGlobalLoading(isLoading) {
    ...
    if (isLoading) { _loadingCount++; } else { _loadingCount = Math.max(0, _loadingCount - 1); }
    el.style.display = _loadingCount > 0 ? 'flex' : 'none';
}
async function apiAction(endpoint, options = {}, { successMessage = null } = {}) {
    try { setGlobalLoading(true); const data = await apiFetch(...); ...; return data; }
    catch (e) { toastError(...); throw e; }
    finally { setGlobalLoading(false); }
}
```
-/

/-- The two counter updates an `apiAction` performs on `_loadingCount`. -/
inductive LoadEvent where
  | started
  | settled
deriving DecidableEq

/-- `setGlobalLoading` on the counter: increment, or clamped decrement
(`Math.max(0, c - 1)` is `Nat` truncated subtraction). -/
def setGlobalLoading (count : Nat) (isLoading : Bool) : Nat :=
  if isLoading then count + 1 else count - 1

/-- The `display` style the indicator element is given after a
`setGlobalLoading` call with the given resulting count. -/
def globalLoadingDisplay (count : Nat) : String :=
  if count > 0 then "flex" else "none"

/-- Replay a sequence of counter updates. -/
def runLoadingEvents : Nat → List LoadEvent → Nat
  | c, [] => c
  | c, .started :: w => runLoadingEvents (setGlobalLoading c true) w
  | c, .settled :: w => runLoadingEvents (setGlobalLoading c false) w

/-- `OpsTrace p f w`: `w` is a possible interleaved event sequence of a
set of `apiAction` operations of which `p` have not started yet and `f`
are in flight; every operation eventually reaches its `finally` block, so
every trace ends with all operations settled.  A `settled` event can only
be emitted by an operation that has already `started`, which is exactly
what the constructors enforce. -/
inductive OpsTrace : Nat → Nat → List LoadEvent → Prop
  | done : OpsTrace 0 0 []
  | start {p f w} : OpsTrace p (f + 1) w → OpsTrace (p + 1) f (.started :: w)
  | finish {p f w} : OpsTrace p f w → OpsTrace p (f + 1) (.settled :: w)

/-- The counter events one `apiAction` contributes: the `try` block begins
with `setGlobalLoading(true)` and the `finally` block runs
`setGlobalLoading(false)` on the success path and on the throw/reject path
alike (the `catch` rethrows, the `finally` still runs). -/
def apiActionEvents (fetchResult : Except String Json) : List LoadEvent :=
  match fetchResult with
  | .ok _ => [.started, .settled]
  | .error _ => [.started, .settled]

/-! ## Quiz question edit submission (app.js lines 1028-1094)

`saveQuizQuestion` reads the edit-modal form, collects the non-empty
trimmed option values into an object keyed by each input's `data-key`,
and refuses to issue the PUT unless the selected correct answer key maps
to one of those collected values. -/

/-- The edit-modal form as `saveQuizQuestion` reads it: the raw textarea
value, the option inputs in DOM order as `(data-key, raw value)` pairs,
and the value of the correct-answer select. -/
structure QuizQuestionForm where
  questionText : String
  optionInputs : List (String × String)
  correctAnswer : String

/-- `form.checkValidity()`: all `required` controls are non-empty
(the textarea, every option input, and the select). -/
def formCheckValidity (f : QuizQuestionForm) : Bool :=
  (f.questionText != "") && f.optionInputs.all (fun kv => kv.2 != "") && (f.correctAnswer != "")

/-- The `options` object built by the `optionInputs.forEach` loop: each
input whose trimmed value is non-empty is assigned under its key. -/
def collectOptions (inputs : List (String × String)) : List (String × String) :=
  inputs.foldl
    (fun acc kv =>
      let v := jsTrim kv.2
      if v != "" then jsObjSet acc kv.1 v else acc)
    []

/-- How a `saveQuizQuestion` invocation ends, up to the network boundary. -/
inductive SaveQuizOutcome where
  | invalidForm
  | validationAlert (message : String)
  | putRequest (path : String) (questionText : String)
      (options : List (String × String)) (correctAnswer : String)

/-- True exactly when the outcome issues a network request. -/
def issuesNetwork : SaveQuizOutcome → Bool
  | .putRequest _ _ _ _ => true
  | _ => false

/-- `saveQuizQuestion` from the source: the local validation sequence and
the PUT it guards. -/
def saveQuizQuestion (quizDate questionId : String) (f : QuizQuestionForm) : SaveQuizOutcome :=
  if !(formCheckValidity f) then .invalidForm
  else
    let questionText := jsTrim f.questionText
    if questionText == "" then .validationAlert "Введите текст вопроса"
    else
      let options := collectOptions f.optionInputs
      if options.length == 0 then .validationAlert "Введите хотя бы один вариант ответа"
      else
        match jsObjGet options f.correctAnswer with
        | some v =>
          if v != "" then
            .putRequest (s!"/quiz/{quizDate}/questions/{questionId}") questionText options f.correctAnswer
          else .validationAlert "Правильный ответ должен быть одним из вариантов"
        | none => .validationAlert "Правильный ответ должен быть одним из вариантов"

/-! ## Quiz creation submission (app.js lines 821-887) -/

/-- One question block of the create-quiz form (raw input values). -/
structure CreateQuizQuestionForm where
  question : String
  option1 : String
  option2 : String
  option3 : String
  option4 : String
  correct : String

/-- The trimmed keyed options object built for one block. -/
def cqOptions (b : CreateQuizQuestionForm) : List (String × String) :=
  [("1", jsTrim b.option1), ("2", jsTrim b.option2), ("3", jsTrim b.option3), ("4", jsTrim b.option4)]

/-- One entry of the `questions` array sent by `submitCreateQuiz`:
trimmed text, keyed options, selected correct answer. -/
structure CreatedQuizQuestion where
  question : String
  options : List (String × String)
  correct_answer : String

/-- The mapping from a form block to its submitted question. -/
def buildCreateQuizQuestion (b : CreateQuizQuestionForm) : CreatedQuizQuestion :=
  ⟨jsTrim b.question, cqOptions b, b.correct⟩

/-- The per-question validation loop body of `submitCreateQuiz`:
first failing check wins. -/
def checkCreatedQuizQuestion (i : Nat) (q : CreatedQuizQuestion) : Option String :=
  if q.question == "" then some s!"Вопрос #{i + 1}: пустой текст"
  else
    match ["1", "2", "3", "4"].find? (fun k => ((jsObjGet q.options k).getD "") == "") with
    | some k => some s!"Вопрос #{i + 1}: вариант {k} обязателен"
    | none =>
      if !(["1", "2", "3", "4"].contains q.correct_answer) then
        some s!"Вопрос #{i + 1}: выберите правильный ответ"
      else none

/-- The validation loop over all question blocks. -/
def validateCreatedQuizQuestions : Nat → List CreatedQuizQuestion → Option String
  | _, [] => none
  | i, q :: rest =>
    match checkCreatedQuizQuestion i q with
    | some m => some m
    | none => validateCreatedQuizQuestions (i + 1) rest

/-- How a `submitCreateQuiz` invocation ends, up to the network boundary. -/
inductive CreateQuizOutcome where
  | validationAlert (message : String)
  | toastErrorShown (message : String)
  | postRequest (startsAtLocal : String) (title : String) (questions : List CreatedQuizQuestion)

/-- `submitCreateQuiz` from the source. -/
def submitCreateQuiz (startsAt titleRaw : String) (blocks : List CreateQuizQuestionForm) :
    CreateQuizOutcome :=
  if startsAt == "" then .validationAlert "Выберите дату и время квиза"
  else if jsTrim titleRaw == "" then .validationAlert "Введите заголовок квиза"
  else if blocks.length < 1 then .validationAlert "Добавьте минимум 1 вопрос"
  else
    let questions := blocks.map buildCreateQuizQuestion
    match validateCreatedQuizQuestions 0 questions with
    | some m => .toastErrorShown m
    | none => .postRequest startsAt (jsTrim titleRaw) questions

/-! ## Detail views with fan-out fetches (app.js lines 332-433, 1294-1400)

`showQuizDetails` joins three parallel fetches with `Promise.all`;
`showRaffleDetails` joins four.  On any rejection the `catch` block
replaces the whole content region with the header, a back-to-list button
and an error alert. -/

/-- JS `a || b` for an optional string (absent or empty falls back). -/
def jsOrStr (o : Option String) (dflt : String) : String :=
  match o with
  | some s => if s == "" then dflt else s
  | none => dflt

/-- JS `a || b` for an optional number (absent or zero falls back). -/
def jsOrInt (o : Option Int) (dflt : Int) : Int :=
  match o with
  | some n => if n == 0 then dflt else n
  | none => dflt

/-- `/quiz/{d}/meta` payload fields the view reads. -/
structure QuizMeta where
  title : Option String
  starts_at_msk : Option String

/-- `/quiz/{d}/stats` payload fields the view reads. -/
structure QuizStats where
  total_participants : Option Int
  with_tickets : Option Int
  no_tickets : Option Int
  non_participants : Option Int

/-- One entry of the `/quiz/{d}/questions` payload (keyed-object
options form). -/
structure QuizQuestionItem where
  id : Option Int
  question : Option String
  question_text : Option String
  options : List (String × String)
  correct_answer : Option String

/-- `Promise.all` over three promises: the join resolves only if every
branch resolves; otherwise it rejects with a rejection's message. -/
def promiseAll3 {α β γ : Type} (a : Except String α) (b : Except String β)
    (c : Except String γ) : Except String (α × β × γ) :=
  match a, b, c with
  | .error e, _, _ => .error e
  | _, .error e, _ => .error e
  | _, _, .error e => .error e
  | .ok va, .ok vb, .ok vc => .ok (va, vb, vc)

/-- `Promise.all` over four promises. -/
def promiseAll4 {α β γ δ : Type} (a : Except String α) (b : Except String β)
    (c : Except String γ) (d : Except String δ) : Except String (α × β × γ × δ) :=
  match a, b, c, d with
  | .error e, _, _, _ => .error e
  | _, .error e, _, _ => .error e
  | _, _, .error e, _ => .error e
  | _, _, _, .error e => .error e
  | .ok va, .ok vb, .ok vc, .ok vd => .ok (va, vb, vc, vd)

/-- The back-to-list button of the quiz detail page. -/
def quizBackButtonHtml : String :=
  "<button class=\"btn btn-secondary mb-3\" onclick=\"loadQuiz()\">◀️ Назад к списку</button>"

/-- The back-to-list button of the raffle detail page. -/
def raffleBackButtonHtml : String :=
  "<button class=\"btn btn-secondary mb-3\" onclick=\"loadRaffle()\">◀️ Назад к списку</button>"

/-- The options list of one rendered quiz question. -/
def quizOptionsHtml (options : List (String × String)) (correctAnswer : Option String) : String :=
  if options.length == 0 then ""
  else
    "<ul>" ++
      String.join (options.map (fun kv =>
        "<li>" ++ kv.1 ++ ". " ++ kv.2 ++
          (if correctAnswer == some kv.1 then " ✅" else "") ++ "</li>")) ++
      "</ul>"

/-- One rendered quiz question card (edit and delete buttons included). -/
def quizQuestionCardHtml (quizDate : String) (idx : Nat) (q : QuizQuestionItem) : String :=
  let questionId := toString (jsOrInt q.id (Int.ofNat (idx + 1)))
  let questionText := jsOrStr q.question (jsOrStr q.question_text "Нет текста")
  "<div class=\"card mb-2\"><h6>Вопрос #" ++ questionId ++ "</h6><p><strong>" ++
    questionText ++ "</strong></p>" ++ quizOptionsHtml q.options q.correct_answer ++
    "<button onclick=\"removeQuizQuestion(" ++ quizDate ++ ", " ++ questionId ++
    ")\">🗑 Удалить</button><button onclick=\"editQuizQuestion(" ++ quizDate ++ ", " ++
    questionId ++ ")\">✏️ Редактировать</button></div>"

/-- The success rendering of the quiz detail page. -/
def quizDetailsSuccessHtml (quizDate : String) (meta : QuizMeta) (stats : QuizStats)
    (questions : List QuizQuestionItem) : String :=
  let title :=
    match meta.title with
    | some t => if t == "" then "" else " — " ++ escapeHtml (.str t)
    | none => ""
  let startsAt :=
    match meta.starts_at_msk with
    | some s =>
      if s == "" then ""
      else "<p class=\"text-muted mb-1\">🕒 Начало: <strong>" ++ escapeHtml (.str s) ++
        "</strong> МСК</p>"
    | none => ""
  let questionsHtml :=
    if questions.length == 0 then "<p>Вопросы не найдены</p>"
    else String.join (questions.enum.map (fun p => quizQuestionCardHtml quizDate p.1 p.2))
  "<h2>🎯 Квиз " ++ quizDate ++ title ++ "</h2>" ++ quizBackButtonHtml ++
    "<button onclick=\"editQuizMeta(" ++ quizDate ++ ")\">✏️ Мета</button>" ++
    "<button onclick=\"duplicateQuiz(" ++ quizDate ++ ")\">📋 Дублировать</button>" ++
    "<button onclick=\"previewQuiz(" ++ quizDate ++ ")\">👀 Превью</button>" ++
    "<button onclick=\"rescheduleQuizJobs(" ++ quizDate ++ ")\">🔁 Перепланировать</button>" ++
    "<div class=\"card mb-3\"><h5>Статистика</h5>" ++ startsAt ++
    "<p>Всего участников: " ++ toString (jsOrInt stats.total_participants 0) ++ "</p>" ++
    "<p>Получили билетик: " ++ toString (jsOrInt stats.with_tickets 0) ++ "</p>" ++
    "<p>Не получили билетик: " ++ toString (jsOrInt stats.no_tickets 0) ++ "</p>" ++
    "<p>Не приняли участие: " ++ toString (jsOrInt stats.non_participants 0) ++ "</p></div>" ++
    "<h5>Вопросы</h5><button onclick=\"showAddQuizQuestionForm(" ++ quizDate ++
    ")\">➕ Добавить вопрос</button>" ++ questionsHtml

/-- The error rendering of the quiz detail page (the `catch` block). -/
def quizErrorHtml (quizDate errMessage : String) : String :=
  ("<h2>🎯 Квиз " ++ quizDate ++ "</h2>") ++ quizBackButtonHtml ++
    ("<div class=\"alert alert-danger\">Ошибка при загрузке данных: " ++ errMessage ++ "</div>")

/-- `showQuizDetails`: the content region after the call, as a function of
the three fetch outcomes. -/
def showQuizDetails (quizDate : String) (meta : Except String QuizMeta)
    (stats : Except String QuizStats) (questions : Except String (List QuizQuestionItem)) :
    String :=
  match promiseAll3 meta stats questions with
  | .ok (m, s, qs) => quizDetailsSuccessHtml quizDate m s qs
  | .error e => quizErrorHtml quizDate e

/-- `/raffle/{d}/stats` payload fields the view reads. -/
structure RaffleStats where
  total_participants : Option Int
  approved : Option Int
  denied : Option Int
  unchecked : Option Int

/-- One entry of the `/raffle/{d}/unchecked` payload. -/
structure UncheckedAnswer where
  user_id : Int
  question_text : Option String
  answer : String

/-- The `/raffle/{d}/unchecked` payload. -/
structure RaffleUnchecked where
  total : Int
  unchecked : List UncheckedAnswer

/-- One entry of the `/raffle/{d}/questions` payload. -/
structure RaffleQuestionItem where
  id : Option Int
  title : Option String
  text : Option String
  question_text : Option String

/-- One rendered raffle question card. -/
def raffleQuestionCardHtml (raffleDate : String) (idx : Nat) (q : RaffleQuestionItem) : String :=
  let questionId := toString (jsOrInt q.id (Int.ofNat (idx + 1)))
  let questionTitle := jsOrStr q.title "Без названия"
  let questionText := jsOrStr q.text (jsOrStr q.question_text "Нет текста")
  "<div class=\"card mb-2\"><h6>Вопрос #" ++ questionId ++ ": " ++
    escapeHtml (.str questionTitle) ++ "</h6><p><strong>" ++ escapeHtml (.str questionText) ++
    "</strong></p><button onclick=\"removeRaffleQuestion(" ++ raffleDate ++ ", " ++ questionId ++
    ")\">🗑 Удалить</button><button onclick=\"editRaffleQuestion(" ++ raffleDate ++ ", " ++
    questionId ++ ")\">✏️ Редактировать</button></div>"

/-- The rendered unchecked-answers table (present only when non-empty). -/
def raffleUncheckedHtml (raffleDate : String) (u : RaffleUnchecked) : String :=
  if u.unchecked.length == 0 then ""
  else
    "<h5 class=\"mt-4\">Непроверенные ответы (" ++ toString u.total ++ ")</h5><table>" ++
      String.join (u.unchecked.map (fun a =>
        "<tr><td>" ++ toString a.user_id ++ "</td><td>" ++
          (match a.question_text with
           | some t => if t == "" then "-" else String.mk (t.data.take 50) ++ "..."
           | none => "-") ++
          "</td><td>" ++ a.answer ++ "</td><td><button onclick=\"approveAnswer(" ++
          raffleDate ++ ", " ++ toString a.user_id ++ ")\">✅</button>" ++
          "<button onclick=\"denyAnswer(" ++ raffleDate ++ ", " ++ toString a.user_id ++
          ")\">❌</button></td></tr>")) ++
      "</table>"

/-- The success rendering of the raffle detail page. -/
def raffleDetailsSuccessHtml (raffleDate : String) (meta : QuizMeta) (stats : RaffleStats)
    (u : RaffleUnchecked) (questions : List RaffleQuestionItem) : String :=
  let title :=
    match meta.title with
    | some t => if t == "" then "" else " — " ++ escapeHtml (.str t)
    | none => ""
  let startsAt :=
    match meta.starts_at_msk with
    | some s =>
      if s == "" then ""
      else "<p class=\"text-muted mb-1\">🕒 Начало: <strong>" ++ escapeHtml (.str s) ++
        "</strong> МСК</p>"
    | none => ""
  let questionsHtml :=
    if questions.length == 0 then "<p>Вопросы не найдены</p>"
    else String.join (questions.enum.map (fun p => raffleQuestionCardHtml raffleDate p.1 p.2))
  "<h2>🎁 Розыгрыш " ++ raffleDate ++ title ++ "</h2>" ++ raffleBackButtonHtml ++
    "<button onclick=\"editRaffleMeta(" ++ raffleDate ++ ")\">✏️ Мета</button>" ++
    "<button onclick=\"duplicateRaffle(" ++ raffleDate ++ ")\">📋 Дублировать</button>" ++
    "<button onclick=\"previewRaffle(" ++ raffleDate ++ ")\">👀 Превью</button>" ++
    "<button onclick=\"rescheduleRaffleJobs(" ++ raffleDate ++ ")\">🔁 Перепланировать</button>" ++
    "<div class=\"card mb-3\"><h5>Статистика</h5>" ++ startsAt ++
    "<p>Всего участников: " ++ toString (jsOrInt stats.total_participants 0) ++ "</p>" ++
    "<p>Принято: " ++ toString (jsOrInt stats.approved 0) ++ "</p>" ++
    "<p>Отклонено: " ++ toString (jsOrInt stats.denied 0) ++ "</p>" ++
    "<p>Не проверено: " ++ toString (jsOrInt stats.unchecked 0) ++ "</p></div>" ++
    "<h5>Вопросы</h5><button onclick=\"showAddRaffleQuestionForm(" ++ raffleDate ++
    ")\">➕ Добавить вопрос</button>" ++ questionsHtml ++ raffleUncheckedHtml raffleDate u

/-- The error rendering of the raffle detail page (the `catch` block). -/
def raffleErrorHtml (raffleDate errMessage : String) : String :=
  ("<h2>🎁 Розыгрыш " ++ raffleDate ++ "</h2>") ++ raffleBackButtonHtml ++
    ("<div class=\"alert alert-danger\">Ошибка при загрузке данных: " ++ errMessage ++ "</div>")

/-- `showRaffleDetails`: the content region after the call, as a function
of the four fetch outcomes. -/
def showRaffleDetails (raffleDate : String) (meta : Except String QuizMeta)
    (stats : Except String RaffleStats) (unchecked : Except String RaffleUnchecked)
    (questions : Except String (List RaffleQuestionItem)) : String :=
  match promiseAll4 meta stats unchecked questions with
  | .ok (m, s, u, qs) => raffleDetailsSuccessHtml raffleDate m s u qs
  | .error e => raffleErrorHtml raffleDate e

/-! ## Modal dialog opening (app.js, all `insertAdjacentHTML` modal sites)

Ten of the thirteen modal-opening code paths remove a previously inserted
element with the same id before inserting the new markup
(`const existing = document.getElementById(id); if (existing) existing.remove();`);
`showTicketInfo` (line 2162), `viewUserDetails` (line 2323) and
`viewUserTickets` (line 2378) insert without that removal. -/

/-- One modal-opening code path: the id of the modal it inserts and
whether it first removes an existing element with that id. -/
structure ModalOpener where
  name : String
  modalId : String
  removesExistingFirst : Bool
deriving DecidableEq

/-- All modal-opening code paths of the source, in source order. -/
def modalOpeners : List ModalOpener :=
  [⟨"editQuizMeta", "editQuizMetaModal", true⟩,
   ⟨"duplicateQuiz", "duplicateQuizModal", true⟩,
   ⟨"previewQuiz", "previewQuizModal", true⟩,
   ⟨"editQuizQuestion", "editQuizQuestionModal", true⟩,
   ⟨"showAddQuizQuestionForm", "addQuizQuestionModal", true⟩,
   ⟨"editRaffleQuestion", "editRaffleQuestionModal", true⟩,
   ⟨"editRaffleMeta", "editRaffleMetaModal", true⟩,
   ⟨"duplicateRaffle", "duplicateRaffleModal", true⟩,
   ⟨"previewRaffle", "previewRaffleModal", true⟩,
   ⟨"showAddRaffleQuestionForm", "addRaffleQuestionModal", true⟩,
   ⟨"showTicketInfo", "ticketModal", false⟩,
   ⟨"viewUserDetails", "userModal", false⟩,
   ⟨"viewUserTickets", "userTicketsModal", false⟩]

/-- The `showTicketInfo` entry of the table (the ticket-info modal). -/
def showTicketInfoOpener : ModalOpener := ⟨"showTicketInfo", "ticketModal", false⟩

/-- `document.getElementById(id).remove()`: removes the first element
with the given id from the body child list. -/
def removeFirstById : List String → String → List String
  | [], _ => []
  | x :: xs, i => if x == i then xs else x :: removeFirstById xs i

/-- The effect of one modal-opening call on the body child-id list:
optional removal of the existing element, then
`document.body.insertAdjacentHTML('beforeend', ...)`. -/
def openModal (o : ModalOpener) (doc : List String) : List String :=
  (if o.removesExistingFirst then removeFirstById doc o.modalId else doc) ++ [o.modalId]

/-- The number of elements with the given id in the document. -/
def countId (doc : List String) (i : String) : Nat :=
  doc.countP (fun x => x == i)

/-! ## Post-mutation follow-ups (claim C4's mutation handler inventory)

Each create/edit/delete/toggle/approve/run handler of the source ends its
success path in exactly one of the follow-ups below; the table transcribes
them handler by handler. -/

/-- What a handler's success path does to the displayed view. -/
inductive AfterSuccess where
  | reloadQuizList
  | reloadRaffleList
  | reloadDiceList
  | loadDashboard
  | loadTicketsPage
  | openQuizDetails (d : String)
  | openRaffleDetails (d : String)
  | openDiceDetails (i : String)
  | stayToastOnly
deriving DecidableEq

/-- The three detail-view kinds. -/
inductive ResourceKind where
  | quiz
  | raffle
  | dice
deriving DecidableEq

/-- The detail view of a resource key. -/
def ResourceKind.detailsOf : ResourceKind → String → AfterSuccess
  | .quiz, d => .openQuizDetails d
  | .raffle, d => .openRaffleDetails d
  | .dice, i => .openDiceDetails i

/-- How a handler's success follow-up depends on its own parameter and on
the key returned by the API response. -/
inductive FollowSpec where
  | always (f : AfterSuccess)
  | detailsOfParam (k : ResourceKind)
  | detailsOfResponseKey (k : ResourceKind)
deriving DecidableEq

/-- Resolve a follow-up for a concrete parameter and response key. -/
def FollowSpec.resolve : FollowSpec → String → String → AfterSuccess
  | .always f, _, _ => f
  | .detailsOfParam k, p, _ => k.detailsOf p
  | .detailsOfResponseKey k, _, r => k.detailsOf r

/-- One mutation handler of the source and its success follow-up. -/
structure MutationHandler where
  name : String
  follow : FollowSpec
deriving DecidableEq

/-- Every mutation handler of the source with the follow-up its success
path performs (transcribed from app.js; line references in order:
889, 899, 821, 534, 605, 1028, 1177, 1096, 1470, 1560, 1887, 1537, 1621,
1448, 1753, 1776, 2734, 2791, 2819, 2834, 1941, 1951, 2182, 2482, 476,
1480). -/
def mutationHandlers : List MutationHandler :=
  [⟨"toggleQuizDate", .always .reloadQuizList⟩,
   ⟨"deleteQuiz", .always .reloadQuizList⟩,
   ⟨"submitCreateQuiz", .always .reloadQuizList⟩,
   ⟨"saveQuizMeta", .detailsOfParam .quiz⟩,
   ⟨"saveDuplicateQuiz", .detailsOfResponseKey .quiz⟩,
   ⟨"saveQuizQuestion", .detailsOfParam .quiz⟩,
   ⟨"saveAddQuizQuestion", .detailsOfParam .quiz⟩,
   ⟨"removeQuizQuestion", .detailsOfParam .quiz⟩,
   ⟨"toggleRaffleDate", .always .reloadRaffleList⟩,
   ⟨"deleteRaffle", .always .reloadRaffleList⟩,
   ⟨"submitCreateRaffle", .detailsOfResponseKey .raffle⟩,
   ⟨"saveRaffleMeta", .detailsOfParam .raffle⟩,
   ⟨"saveDuplicateRaffle", .detailsOfResponseKey .raffle⟩,
   ⟨"saveRaffleQuestion", .detailsOfParam .raffle⟩,
   ⟨"saveAddRaffleQuestion", .detailsOfParam .raffle⟩,
   ⟨"removeRaffleQuestion", .detailsOfParam .raffle⟩,
   ⟨"createDiceSubmit", .always .reloadDiceList⟩,
   ⟨"editDiceMetaSubmit", .detailsOfParam .dice⟩,
   ⟨"toggleDice", .always .reloadDiceList⟩,
   ⟨"deleteDice", .always .reloadDiceList⟩,
   ⟨"approveAnswer", .always .loadDashboard⟩,
   ⟨"denyAnswer", .always .loadDashboard⟩,
   ⟨"removeTicket", .always .loadTicketsPage⟩,
   ⟨"runQuizAction", .always .stayToastOnly⟩,
   ⟨"rescheduleQuizJobs", .always .stayToastOnly⟩,
   ⟨"rescheduleRaffleJobs", .always .stayToastOnly⟩]

/-- The `runQuizAction` entry of the table. -/
def runQuizActionHandler : MutationHandler := ⟨"runQuizAction", .always .stayToastOnly⟩

/-- A follow-up that re-renders some full view (a list/detail reload or a
page navigation), as opposed to leaving the displayed state as it was. -/
def isReloadOrNavigation : AfterSuccess → Bool
  | .stayToastOnly => false
  | _ => true

/-! ## Duplicate submission (app.js lines 605-626, 1621-1642) -/

/-- The duplicate-endpoint response fields the handlers read: the new
resource key (`quiz_date` / `raffle_date`) and the truthiness of the
`scheduled` flag. -/
structure DuplicateResponse where
  key : String
  scheduled : Bool

/-- How a duplicate submission ends. -/
inductive SaveDupOutcome where
  | invalidForm
  | failedToastShown
  | succeeded (toast : String) (nav : AfterSuccess)

/-- The scheduler-update phrase of the success toast. -/
def schedulerUpdatePhrase : String := "(задачи обновлены)"

/-- `saveDuplicateQuiz` from the source, as a function of the form
validity check and the `apiAction` outcome. -/
def saveDuplicateQuiz (formValid : Bool) (api : Except String DuplicateResponse) :
    SaveDupOutcome :=
  if !formValid then .invalidForm
  else
    match api with
    | .error _ => .failedToastShown
    | .ok resp =>
      .succeeded
        ("Квиз продублирован на дату " ++ resp.key ++
          (if resp.scheduled then " (задачи обновлены)" else ""))
        (.openQuizDetails resp.key)

/-- `saveDuplicateRaffle` from the source. -/
def saveDuplicateRaffle (formValid : Bool) (api : Except String DuplicateResponse) :
    SaveDupOutcome :=
  if !formValid then .invalidForm
  else
    match api with
    | .error _ => .failedToastShown
    | .ok resp =>
      .succeeded
        ("Розыгрыш продублирован на дату " ++ resp.key ++
          (if resp.scheduled then " (задачи обновлены)" else ""))
        (.openRaffleDetails resp.key)

/-! ## Delete actions and their confirmation step (app.js lines 899-910,
1096-1107, 1560-1571, 1776-1787, 2182-2194, 2834-2847) -/

/-- The user-observable steps a handler performs, in order. -/
inductive UiStep where
  | confirmPrompt (message : String)
  | networkCall (method : String) (path : String)
  | toastShown (message : String)
  | alertShown (message : String)
  | viewChange (v : AfterSuccess)
deriving DecidableEq

/-- True exactly for network steps. -/
def isNetworkStep : UiStep → Bool
  | .networkCall _ _ => true
  | _ => false

/-- A delete handler: its source name and its step sequence as a function
of two string parameters and the `confirm()` outcome (the API success
path is shown; an API failure replaces the trailing toast/alert and view
change with an error toast or alert, which the claims do not touch). -/
structure DeleteHandler where
  name : String
  run : String → String → Bool → List UiStep

/-- `deleteQuiz(quizDate)`. -/
def deleteQuizHandler : DeleteHandler :=
  ⟨"deleteQuiz", fun quizDate _ confirmed =>
    .confirmPrompt s!"Удалить квиз {quizDate}? Это действие нельзя отменить." ::
      if !confirmed then []
      else [.networkCall "DELETE" ("/quiz/" ++ quizDate),
        .toastShown "Квиз удален", .viewChange .reloadQuizList]⟩

/-- `deleteRaffle(raffleDate)`. -/
def deleteRaffleHandler : DeleteHandler :=
  ⟨"deleteRaffle", fun raffleDate _ confirmed =>
    .confirmPrompt s!"Удалить розыгрыш {raffleDate}? Это действие нельзя отменить." ::
      if !confirmed then []
      else [.networkCall "DELETE" ("/raffle/" ++ raffleDate),
        .toastShown "Розыгрыш удален", .viewChange .reloadRaffleList]⟩

/-- `deleteDice(diceId)`. -/
def deleteDiceHandler : DeleteHandler :=
  ⟨"deleteDice", fun diceId _ confirmed =>
    .confirmPrompt
        s!"Вы уверены, что хотите удалить событие \"{diceId}\"? Это действие нельзя отменить." ::
      if !confirmed then []
      else [.networkCall "DELETE" ("/dice/" ++ diceId),
        .toastShown "Событие удалено", .viewChange .reloadDiceList]⟩

/-- `removeQuizQuestion(quizDate, questionId)` (success toast shown for a
response without the `scheduled` flag). -/
def removeQuizQuestionHandler : DeleteHandler :=
  ⟨"removeQuizQuestion", fun quizDate questionId confirmed =>
    .confirmPrompt s!"Удалить вопрос #{questionId}?" ::
      if !confirmed then []
      else [.networkCall "DELETE" ("/quiz/" ++ quizDate ++ "/questions/" ++ questionId),
        .toastShown "Вопрос удален", .viewChange (.openQuizDetails quizDate)]⟩

/-- `removeRaffleQuestion(raffleDate, questionId)`. -/
def removeRaffleQuestionHandler : DeleteHandler :=
  ⟨"removeRaffleQuestion", fun raffleDate questionId confirmed =>
    .confirmPrompt s!"Удалить вопрос #{questionId}?" ::
      if !confirmed then []
      else [.networkCall "DELETE" ("/raffle/" ++ raffleDate ++ "/questions/" ++ questionId),
        .toastShown "Вопрос удален", .viewChange (.openRaffleDetails raffleDate)]⟩

/-- `removeTicket(userId, ticketNumber)`. -/
def removeTicketHandler : DeleteHandler :=
  ⟨"removeTicket", fun userId ticketNumber confirmed =>
    .confirmPrompt s!"Удалить билетик №{ticketNumber} у пользователя {userId}?" ::
      if !confirmed then []
      else [.networkCall "DELETE" ("/tickets/" ++ userId ++ "/" ++ ticketNumber),
        .alertShown "Билетик удален!", .viewChange .loadTicketsPage]⟩

/-- The delete handlers of the source (quiz, raffle, dice, the two
question kinds, tickets). -/
def deleteHandlers : List DeleteHandler :=
  [deleteQuizHandler, deleteRaffleHandler, deleteDiceHandler,
   removeQuizQuestionHandler, removeRaffleQuestionHandler, removeTicketHandler]

/-! # Helper lemmas -/

theorem jsReplaceAllChar_append (c : Char) (rep l₁ l₂ : List Char) :
    jsReplaceAllChar c rep (l₁ ++ l₂) =
      jsReplaceAllChar c rep l₁ ++ jsReplaceAllChar c rep l₂ := by
  induction l₁ with
  | nil => rfl
  | cons x xs ih => simp [jsReplaceAllChar, ih]

theorem escapeHtmlData_append (l₁ l₂ : List Char) :
    escapeHtmlData (l₁ ++ l₂) = escapeHtmlData l₁ ++ escapeHtmlData l₂ := by
  simp [escapeHtmlData, jsReplaceAllChar_append]

theorem escapeHtmlData_singleton (x : Char) : escapeHtmlData [x] = escapeHtmlChar x := by
  by_cases h1 : x = '&'
  · subst h1; decide
  by_cases h2 : x = '<'
  · subst h2; decide
  by_cases h3 : x = '>'
  · subst h3; decide
  by_cases h4 : x = '"'
  · subst h4; decide
  by_cases h5 : x = aposChar
  · subst h5; decide
  simp [escapeHtmlData, escapeHtmlChar, jsReplaceAllChar, h1, h2, h3, h4, h5]

theorem escapeHtmlData_eq_bind (l : List Char) : escapeHtmlData l = l.flatMap escapeHtmlChar := by
  induction l with
  | nil => rfl
  | cons x xs ih =>
    have hx : x :: xs = [x] ++ xs := rfl
    rw [hx, escapeHtmlData_append, ih, escapeHtmlData_singleton]
    simp

theorem escapeHtmlChar_no_specials (c : Char) :
    '<' ∉ escapeHtmlChar c ∧ '>' ∉ escapeHtmlChar c ∧
    '"' ∉ escapeHtmlChar c ∧ aposChar ∉ escapeHtmlChar c := by
  unfold escapeHtmlChar
  by_cases h1 : c = '&'
  · simp [h1]; decide
  by_cases h2 : c = '<'
  · simp [h1, h2]; decide
  by_cases h3 : c = '>'
  · simp [h1, h2, h3]; decide
  by_cases h4 : c = '"'
  · simp [h1, h2, h3, h4]; decide
  by_cases h5 : c = aposChar
  · simp [h1, h2, h3, h4, h5]; decide
  simp only [h1, h2, h3, h4, h5, if_false]
  refine ⟨?_, ?_, ?_, ?_⟩ <;> simp <;> intro h <;>
    first
      | exact h2 h.symm
      | exact h3 h.symm
      | exact h4 h.symm
      | exact h5 h.symm

/-! # Claim theorems -/

/-- C10: for every input string, `escapeHtml` computes exactly the
character-wise entity translation (ampersand escaped first, so later
replacements never break an already produced entity), the result contains
none of the characters lt, gt, double quote, apostrophe, and `escapeHtml`
of `null` or `undefined` is the empty string. -/
theorem escapeHtml_safe :
    (∀ s : String,
      (escapeHtml (.str s)).data = s.data.flatMap escapeHtmlChar ∧
      '<' ∉ (escapeHtml (.str s)).data ∧
      '>' ∉ (escapeHtml (.str s)).data ∧
      '"' ∉ (escapeHtml (.str s)).data ∧
      aposChar ∉ (escapeHtml (.str s)).data) ∧
    escapeHtml .nullv = "" ∧ escapeHtml .undef = "" := by
  refine ⟨fun s => ?_, rfl, rfl⟩
  have hdata : (escapeHtml (.str s)).data = s.data.flatMap escapeHtmlChar := by
    show escapeHtmlData s.data = s.data.flatMap escapeHtmlChar
    exact escapeHtmlData_eq_bind s.data
  refine ⟨hdata, ?_, ?_, ?_, ?_⟩ <;> rw [hdata] <;> intro hmem <;>
    obtain ⟨a, _, hma⟩ := List.mem_flatMap.mp hmem
  · exact (escapeHtmlChar_no_specials a).1 hma
  · exact (escapeHtmlChar_no_specials a).2.1 hma
  · exact (escapeHtmlChar_no_specials a).2.2.1 hma
  · exact (escapeHtmlChar_no_specials a).2.2.2 hma

theorem jsToLower_eq_empty_iff (s : String) : jsToLower s = "" ↔ s = "" := by
  obtain ⟨l⟩ := s
  constructor
  · intro h
    have hd : l.map Char.toLower = ([] : List Char) := by
      have h2 := congrArg String.data h
      simpa [jsToLower] using h2
    have hl : l = [] := by simpa using hd
    subst hl
    rfl
  · intro h
    rw [h]
    rfl

theorem searchFilterVisible_eq_claimVisible_trim (q : String) (it : AdminListItem) :
    searchFilterVisible q it = claimVisible (jsTrim q) it := by
  unfold searchFilterVisible claimVisible
  have hbe : (jsToLower (jsTrim q) == "") = (jsTrim q == "") := by
    by_cases h : jsTrim q = ""
    · rw [h]
      simp [(jsToLower_eq_empty_iff "").mpr rfl]
    · have h2 : ¬ jsToLower (jsTrim q) = "" := fun hc => h ((jsToLower_eq_empty_iff _).mp hc)
      simp [h, h2]
  simp only [hbe]

/-- C2 counterexample: the claim predicts that for the query `" x"`
(a leading space) a row with key `"2025-01-10"` and title `"x"` is hidden
(neither field contains `" x"`), but the handler trims the query before
matching and shows the row. -/
theorem searchFilter_counterexample :
    searchFilterVisible " x" ⟨"2025-01-10", "x"⟩ = true ∧
    claimVisible " x" ⟨"2025-01-10", "x"⟩ = false := by
  constructor <;> decide

/-- C2 (amended): on every input event the visible rows are exactly the
items whose key or title contains the trimmed query case-insensitively,
and a query that trims to the empty string makes every row visible. -/
theorem searchFilter_shows_trimmed_matches (q : String) (items : List AdminListItem) :
    ((applySearchFilter q items).filter (fun p => p.2)).map Prod.fst
      = items.filter (fun it => claimVisible (jsTrim q) it) ∧
    applySearchFilter "" items = items.map (fun it => (it, true)) := by
  constructor
  · unfold applySearchFilter
    induction items with
    | nil => rfl
    | cons x xs ih =>
      simp only [List.map_cons, List.filter_cons]
      by_cases hv : searchFilterVisible q x = true
      · have hv2 : claimVisible (jsTrim q) x = true := by
          rw [← searchFilterVisible_eq_claimVisible_trim q x]
          exact hv
        simp [hv, hv2, ih]
      · have hv2 : claimVisible (jsTrim q) x = false := by
          rw [← searchFilterVisible_eq_claimVisible_trim q x]
          exact Bool.eq_false_iff.mpr hv
        simp [hv, hv2, ih]
  · unfold applySearchFilter
    have hempty : ∀ it : AdminListItem, searchFilterVisible "" it = true := by
      intro it
      unfold searchFilterVisible
      have : (jsToLower (jsTrim "") == "") = true := by decide
      simp [this]
    simp [hempty]

theorem opsTrace_runLoadingEvents {p f : Nat} {w : List LoadEvent}
    (h : OpsTrace p f w) : runLoadingEvents f w = 0 := by
  induction h with
  | done => rfl
  | start _ ih => simpa [runLoadingEvents, setGlobalLoading] using ih
  | finish _ ih => simpa [runLoadingEvents, setGlobalLoading] using ih

/-- C7: the loading state is a reference count: `apiAction` emits its
increment and its `finally` decrement on the success path and on the
throw/reject path alike; the blocking indicator is displayed exactly
while the count is positive; and after any interleaved trace in which
every started operation has settled, the count is back to zero and the
indicator is hidden. -/
theorem globalLoading_refcount :
    (∀ fetchResult : Except String Json,
      apiActionEvents fetchResult = [.started, .settled]) ∧
    (∀ count : Nat, globalLoadingDisplay count = "flex" ↔ 0 < count) ∧
    (∀ (n : Nat) (w : List LoadEvent), OpsTrace n 0 w →
      runLoadingEvents 0 w = 0 ∧
      globalLoadingDisplay (runLoadingEvents 0 w) = "none") := by
  refine ⟨fun r => ?_, fun count => ?_, fun n w h => ?_⟩
  · cases r <;> rfl
  · cases count with
    | zero => simp [globalLoadingDisplay]
    | succ c => simp [globalLoadingDisplay]
  · have h0 := opsTrace_runLoadingEvents h
    exact ⟨h0, by rw [h0]; rfl⟩

/-- C7 witness: a concrete interleaving of two `apiAction` operations
(start, start, settle, settle) brings the count back to zero and hides
the indicator. -/
theorem globalLoading_refcount_witness :
    runLoadingEvents 0 [.started, .started, .settled, .settled] = 0 ∧
    globalLoadingDisplay
      (runLoadingEvents 0 [.started, .started, .settled, .settled]) = "none" :=
  globalLoading_refcount.2.2 2 [.started, .started, .settled, .settled]
    (.start (.start (.finish (.finish .done))))

theorem jsObjSet_value_cases {o : List (String × String)} {k v : String}
    {kv : String × String} (h : kv ∈ jsObjSet o k v) : kv.2 = v ∨ kv ∈ o := by
  unfold jsObjSet at h
  by_cases ha : o.any (fun kv => kv.1 == k)
  · simp only [ha, if_true] at h
    obtain ⟨kv0, hkv0, heq⟩ := List.mem_map.mp h
    by_cases hk : kv0.1 == k
    · left
      rw [if_pos hk] at heq
      rw [← heq]
    · right
      rw [if_neg hk] at heq
      rw [← heq]
      exact hkv0
  · simp only [ha, if_false] at h
    rcases List.mem_append.mp h with h2 | h2
    · right; exact h2
    · left
      have : kv = (k, v) := by simpa using h2
      rw [this]

theorem collectOptions_values_ne_empty (inputs : List (String × String)) :
    ∀ kv ∈ collectOptions inputs, kv.2 ≠ "" := by
  have key : ∀ (ins : List (String × String)) (acc : List (String × String)),
      (∀ kv ∈ acc, kv.2 ≠ "") →
      ∀ kv ∈ ins.foldl
        (fun acc kv =>
          let v := jsTrim kv.2
          if v != "" then jsObjSet acc kv.1 v else acc) acc, kv.2 ≠ "" := by
    intro ins
    induction ins with
    | nil => intro acc hacc kv hkv; exact hacc kv hkv
    | cons x xs ih =>
      intro acc hacc kv hkv
      simp only [List.foldl_cons] at hkv
      by_cases hx : jsTrim x.2 != ""
      · refine ih (jsObjSet acc x.1 (jsTrim x.2)) ?_ kv (by simpa [hx] using hkv)
        intro kv2 hkv2
        rcases jsObjSet_value_cases hkv2 with h | h
        · rw [h]; exact bne_iff_ne.mp hx
        · exact hacc kv2 h
      · exact ih acc hacc kv (by simpa [hx] using hkv)
  exact key inputs [] (by intro kv h; simp at h)

theorem jsObjGet_some_mem {o : List (String × String)} {k v : String}
    (h : jsObjGet o k = some v) : ∃ kv ∈ o, kv.2 = v := by
  unfold jsObjGet at h
  cases hf : o.find? (fun kv => kv.1 == k) with
  | none => rw [hf] at h; simp at h
  | some kv =>
    rw [hf] at h
    exact ⟨kv, List.mem_of_find?_eq_some hf, by simpa using h⟩

theorem saveQuizQuestion_put_inversion (quizDate questionId : String) (f : QuizQuestionForm)
    {path qt : String} {opts : List (String × String)} {ca : String}
    (heq : saveQuizQuestion quizDate questionId f = .putRequest path qt opts ca) :
    opts = collectOptions f.optionInputs ∧ ca = f.correctAnswer ∧
    ∃ v, jsObjGet opts ca = some v ∧ v ≠ "" := by
  cases hfv : formCheckValidity f with
  | false => simp [saveQuizQuestion, hfv] at heq
  | true =>
    by_cases hqt : (jsTrim f.questionText == "") = true
    · simp [saveQuizQuestion, hfv, hqt] at heq
    · by_cases hlen : ((collectOptions f.optionInputs).length == 0) = true
      · simp [saveQuizQuestion, hfv, hqt, hlen] at heq
      · cases hfind : jsObjGet (collectOptions f.optionInputs) f.correctAnswer with
        | none => simp [saveQuizQuestion, hfv, hqt, hlen, hfind] at heq
        | some v =>
          by_cases hv : (v != "") = true
          · simp only [saveQuizQuestion, hfv, hqt, hlen, hfind, hv, Bool.not_true,
              Bool.false_eq_true, if_false, if_true] at heq
            cases heq
            exact ⟨rfl, rfl, v, hfind, bne_iff_ne.mp hv⟩
          · simp [saveQuizQuestion, hfv, hqt, hlen, hfind, hv] at heq

theorem validateCreatedQuizQuestions_none :
    ∀ (i : Nat) (qs : List CreatedQuizQuestion),
      validateCreatedQuizQuestions i qs = none →
      ∀ q ∈ qs, ∃ j, checkCreatedQuizQuestion j q = none := by
  intro i qs
  induction qs generalizing i with
  | nil => intro _ q hq; simp at hq
  | cons x xs ih =>
    intro h q hq
    cases hc : checkCreatedQuizQuestion i x with
    | some m => simp [validateCreatedQuizQuestions, hc] at h
    | none =>
      simp only [validateCreatedQuizQuestions, hc] at h
      rcases List.mem_cons.mp hq with hq | hq
      · exact ⟨i, by rw [hq]; exact hc⟩
      · exact ih (i + 1) h q hq

theorem checkCreatedQuizQuestion_none_safe {i : Nat} {q : CreatedQuizQuestion}
    (h : checkCreatedQuizQuestion i q = none) :
    ∃ v, jsObjGet q.options q.correct_answer = some v ∧ v ≠ "" := by
  unfold checkCreatedQuizQuestion at h
  by_cases hq : (q.question == "") = true
  · rw [if_pos hq] at h
    cases h
  rw [if_neg hq] at h
  cases hfind : ["1", "2", "3", "4"].find? (fun k => ((jsObjGet q.options k).getD "") == "") with
  | some k =>
    rw [hfind] at h
    cases h
  | none =>
    rw [hfind] at h
    by_cases hin : (["1", "2", "3", "4"].contains q.correct_answer) = true
    · have hmem : q.correct_answer ∈ ["1", "2", "3", "4"] := by
        simpa using hin
      have hne := List.find?_eq_none.mp hfind q.correct_answer hmem
      have hgetD : (jsObjGet q.options q.correct_answer).getD "" ≠ "" := by
        intro hc
        exact hne (by simp [hc])
      cases hget : jsObjGet q.options q.correct_answer with
      | none => exact absurd (by simp [hget]) hgetD
      | some v =>
        refine ⟨v, rfl, ?_⟩
        intro hv
        exact hgetD (by simp [hget, hv])
    · have hcont : (["1", "2", "3", "4"].contains q.correct_answer) = false :=
        Bool.eq_false_iff.mpr hin
      rw [hcont] at h
      simp at h

/-- C1: a quiz-question edit submission whose selected correct-answer key
is not among the collected non-empty option keys never reaches the
network (the handler stops at a local message), the PUT is issued only
when the chosen key maps to a non-empty collected option value, and the
create-quiz submission likewise posts only questions whose correct answer
maps to a non-empty option. -/
theorem saveQuizQuestion_guards_put
    (quizDate questionId : String) (f : QuizQuestionForm)
    (startsAt titleRaw : String) (blocks : List CreateQuizQuestionForm) :
    (jsObjGet (collectOptions f.optionInputs) f.correctAnswer = none →
      issuesNetwork (saveQuizQuestion quizDate questionId f) = false) ∧
    (∀ path qt opts ca,
      saveQuizQuestion quizDate questionId f = .putRequest path qt opts ca →
      opts = collectOptions f.optionInputs ∧ ca = f.correctAnswer ∧
      ∃ v, jsObjGet opts ca = some v ∧ v ≠ "") ∧
    (∀ sa t qs, submitCreateQuiz startsAt titleRaw blocks = .postRequest sa t qs →
      ∀ tq ∈ qs, ∃ v, jsObjGet tq.options tq.correct_answer = some v ∧ v ≠ "") := by
  refine ⟨fun hnone => ?_, fun path qt opts ca heq => ?_, fun sa t qs heq tq htq => ?_⟩
  · cases hout : saveQuizQuestion quizDate questionId f with
    | invalidForm => rfl
    | validationAlert m => rfl
    | putRequest path qt opts ca =>
      obtain ⟨hopts, hca, v, hget, _⟩ := saveQuizQuestion_put_inversion quizDate questionId f hout
      rw [hopts, hca, hnone] at hget
      cases hget
  · exact saveQuizQuestion_put_inversion quizDate questionId f heq
  · unfold submitCreateQuiz at heq
    by_cases h1 : (startsAt == "") = true
    · simp [h1] at heq
    · by_cases h2 : (jsTrim titleRaw == "") = true
      · simp [h1, h2] at heq
      · by_cases h3 : blocks.length < 1
        · simp [h1, h2, h3] at heq
        · cases hval : validateCreatedQuizQuestions 0 (blocks.map buildCreateQuizQuestion) with
          | some m => simp [h1, h2, h3, hval] at heq
          | none =>
            simp only [h1, h2, h3, hval, if_false] at heq
            cases heq
            obtain ⟨j, hj⟩ :=
              validateCreatedQuizQuestions_none 0 (blocks.map buildCreateQuizQuestion) hval tq htq
            exact checkCreatedQuizQuestion_none_safe hj

/-- C1 witness: a form whose correct-answer select says key 5 while the
non-empty options are keyed 1-4 is rejected locally, with no PUT. -/
theorem saveQuizQuestion_guards_put_witness :
    issuesNetwork (saveQuizQuestion "2025-01-10" "1"
      ⟨"Вопрос?", [("1", "a"), ("2", "b"), ("3", "c"), ("4", "d")], "5"⟩) = false :=
  (saveQuizQuestion_guards_put "2025-01-10" "1"
      ⟨"Вопрос?", [("1", "a"), ("2", "b"), ("3", "c"), ("4", "d")], "5"⟩
      "" "" []).1 (by decide)

/-- C3 counterexample: a 200 response whose body is not valid JSON makes
`apiFetch` reject with the JSON read error, so "resolves with the parsed
JSON body exactly when the status is 2xx" fails in the 2xx-implies-resolve
direction at this input. -/
theorem apiFetch_counterexample :
    HttpResponse.ok ⟨200, "OK", none⟩ = true ∧
    apiFetch ⟨200, "OK", none⟩ = .rejected jsonReadFailureMessage := by
  exact ⟨by decide, rfl⟩

/-- C3 (amended): `apiFetch` resolves exactly when the status is 2xx and
the body parses as JSON, and then with that parsed body; on any non-2xx
status it always rejects; the rejection message is the body's `detail`
field (the message field of the error body) whenever the body parses and
that field is truthy, and the HTTP status text whenever the body fails to
parse and the status text is non-empty. -/
theorem apiFetch_contract (r : HttpResponse) :
    (∀ v : Json, apiFetch r = .resolved v ↔ (r.ok = true ∧ r.body = some v)) ∧
    (r.ok = false → ∃ m, apiFetch r = .rejected m) ∧
    (∀ d : Json, r.ok = false → r.body = some d →
      ∀ m : Json, d.getProp "detail" = some m → m.truthy = true →
        apiFetch r = .rejected m.toJsString) ∧
    (r.ok = false → r.body = none → r.statusText ≠ "" →
      apiFetch r = .rejected r.statusText) := by
  have hmsg : ∀ d m : Json, d.getProp "detail" = some m → m.truthy = true →
      apiFetchErrorMessage d = m.toJsString := by
    intro d m hgp ht
    unfold apiFetchErrorMessage
    rw [hgp]
    simp [ht]
  refine ⟨fun v => ?_, fun hok => ?_, fun d hok hb m hgp ht => ?_, fun hok hb hst => ?_⟩
  · cases hok : r.ok with
    | true =>
      cases hb : r.body with
      | some v2 => simp [apiFetch, hok, hb]
      | none => simp [apiFetch, hok, hb]
    | false => simp [apiFetch, hok]
  · unfold apiFetch
    rw [hok]
    simp only [Bool.false_eq_true, if_false]
    exact ⟨_, rfl⟩
  · unfold apiFetch
    rw [hok, hb]
    simp only [Bool.false_eq_true, if_false]
    rw [hmsg d m hgp ht]
  · unfold apiFetch
    rw [hok, hb]
    simp only [Bool.false_eq_true, if_false]
    have hgp : Json.getProp (.obj [("detail", .str r.statusText)]) "detail"
        = some (.str r.statusText) := by
      simp [Json.getProp]
    have ht : (Json.str r.statusText).truthy = true := by
      simp only [Json.truthy, bne_iff_ne, ne_eq]
      exact hst
    have := hmsg (.obj [("detail", .str r.statusText)]) (.str r.statusText) hgp ht
    rw [this]
    rfl

/-- C3 witness: a 500 response whose JSON body carries `detail: "boom"`
is rejected with message `boom`. -/
theorem apiFetch_contract_witness :
    apiFetch ⟨500, "Internal Server Error", some (.obj [("detail", .str "boom")])⟩
      = .rejected "boom" := by
  have h := (apiFetch_contract
      ⟨500, "Internal Server Error", some (.obj [("detail", .str "boom")])⟩).2.2.1
    (.obj [("detail", .str "boom")]) (by decide) rfl (.str "boom")
    (by simp [Json.getProp]) (by decide)
  exact h

theorem jsIncludes_middle (a b c : String) : jsIncludes (a ++ b ++ c) b = true := by
  unfold jsIncludes
  rw [decide_eq_true_eq]
  refine ⟨a.data, c.data, ?_⟩
  simp [String.data_append]

theorem promiseAll3_error {α β γ : Type} {a : Except String α} {b : Except String β}
    {c : Except String γ}
    (h : (∃ e, a = .error e) ∨ (∃ e, b = .error e) ∨ (∃ e, c = .error e)) :
    ∃ e, promiseAll3 a b c = .error e := by
  cases a <;> cases b <;> cases c <;>
    first
      | exact ⟨_, rfl⟩
      | (exfalso
         rcases h with ⟨e, he⟩ | ⟨e, he⟩ | ⟨e, he⟩ <;> cases he)

theorem promiseAll4_error {α β γ δ : Type} {a : Except String α} {b : Except String β}
    {c : Except String γ} {d : Except String δ}
    (h : (∃ e, a = .error e) ∨ (∃ e, b = .error e) ∨ (∃ e, c = .error e) ∨
      (∃ e, d = .error e)) :
    ∃ e, promiseAll4 a b c d = .error e := by
  cases a <;> cases b <;> cases c <;> cases d <;>
    first
      | exact ⟨_, rfl⟩
      | (exfalso
         rcases h with ⟨e, he⟩ | ⟨e, he⟩ | ⟨e, he⟩ | ⟨e, he⟩ <;> cases he)

/-- C5: whenever any one of the fanned-out fetches of a detail view
rejects, the whole join rejects and the content region is replaced by the
error panel — which carries the back-to-list button — and not by any
(partial) success rendering, for the quiz and the raffle detail views. -/
theorem showDetails_error_panel
    (quizDate raffleDate : String)
    (qmeta : Except String QuizMeta) (qstats : Except String QuizStats)
    (qquestions : Except String (List QuizQuestionItem))
    (rmeta : Except String QuizMeta) (rstats : Except String RaffleStats)
    (runchecked : Except String RaffleUnchecked)
    (rquestions : Except String (List RaffleQuestionItem)) :
    (((∃ e, qmeta = .error e) ∨ (∃ e, qstats = .error e) ∨ (∃ e, qquestions = .error e)) →
      ∃ e, showQuizDetails quizDate qmeta qstats qquestions = quizErrorHtml quizDate e ∧
        jsIncludes (showQuizDetails quizDate qmeta qstats qquestions) quizBackButtonHtml
          = true) ∧
    (((∃ e, rmeta = .error e) ∨ (∃ e, rstats = .error e) ∨ (∃ e, runchecked = .error e) ∨
        (∃ e, rquestions = .error e)) →
      ∃ e, showRaffleDetails raffleDate rmeta rstats runchecked rquestions
          = raffleErrorHtml raffleDate e ∧
        jsIncludes (showRaffleDetails raffleDate rmeta rstats runchecked rquestions)
          raffleBackButtonHtml = true) := by
  constructor
  · intro h
    obtain ⟨e, he⟩ := promiseAll3_error h
    have hrender : showQuizDetails quizDate qmeta qstats qquestions
        = quizErrorHtml quizDate e := by
      unfold showQuizDetails
      rw [he]
    refine ⟨e, hrender, ?_⟩
    rw [hrender]
    unfold quizErrorHtml
    exact jsIncludes_middle _ _ _
  · intro h
    obtain ⟨e, he⟩ := promiseAll4_error h
    have hrender : showRaffleDetails raffleDate rmeta rstats runchecked rquestions
        = raffleErrorHtml raffleDate e := by
      unfold showRaffleDetails
      rw [he]
    refine ⟨e, hrender, ?_⟩
    rw [hrender]
    unfold raffleErrorHtml
    exact jsIncludes_middle _ _ _

/-- C5 witness: a quiz detail load whose stats fetch rejects with HTTP
500 renders the error panel with the back button, and likewise a raffle
detail load whose unchecked fetch rejects. -/
theorem showDetails_error_panel_witness :
    (∃ e, showQuizDetails "2025-01-10" (.ok ⟨none, none⟩) (.error "HTTP 500") (.ok [])
        = quizErrorHtml "2025-01-10" e ∧
      jsIncludes (showQuizDetails "2025-01-10" (.ok ⟨none, none⟩) (.error "HTTP 500") (.ok []))
        quizBackButtonHtml = true) ∧
    (∃ e, showRaffleDetails "2025-01-10" (.ok ⟨none, none⟩) (.ok ⟨none, none, none, none⟩)
        (.error "HTTP 500") (.ok [])
        = raffleErrorHtml "2025-01-10" e ∧
      jsIncludes (showRaffleDetails "2025-01-10" (.ok ⟨none, none⟩)
        (.ok ⟨none, none, none, none⟩) (.error "HTTP 500") (.ok []))
        raffleBackButtonHtml = true) :=
  ⟨(showDetails_error_panel "2025-01-10" "2025-01-10" (.ok ⟨none, none⟩) (.error "HTTP 500")
      (.ok []) (.ok ⟨none, none⟩) (.ok ⟨none, none, none, none⟩) (.error "HTTP 500")
      (.ok [])).1 (Or.inr (Or.inl ⟨_, rfl⟩)),
   (showDetails_error_panel "2025-01-10" "2025-01-10" (.ok ⟨none, none⟩) (.error "HTTP 500")
      (.ok []) (.ok ⟨none, none⟩) (.ok ⟨none, none, none, none⟩) (.error "HTTP 500")
      (.ok [])).2 (Or.inr (Or.inr (Or.inl ⟨_, rfl⟩)))⟩

theorem countId_removeFirstById (doc : List String) (i : String) :
    countId (removeFirstById doc i) i = countId doc i - 1 := by
  induction doc with
  | nil => rfl
  | cons x xs ih =>
    by_cases hx : (x == i) = true
    · simp [removeFirstById, countId, hx, List.countP_cons]
    · have hx2 : (x == i) = false := Bool.eq_false_iff.mpr hx
      simp only [removeFirstById, hx2, if_false, Bool.false_eq_true]
      simp only [countId, List.countP_cons, hx2] at *
      simpa using ih

/-- C6 counterexample: `showTicketInfo` opens the ticket-info modal
without removing a previously inserted element with the same id, so a
call made while a `ticketModal` element exists leaves two elements with
that id in the document — the claim fails at this modal-opening function. -/
theorem showTicketInfo_counterexample :
    showTicketInfoOpener ∈ modalOpeners ∧
    showTicketInfoOpener.removesExistingFirst = false ∧
    countId (openModal showTicketInfoOpener ["ticketModal"]) "ticketModal" = 2 := by
  refine ⟨by decide, rfl, by decide⟩

/-- C6 (amended): every modal-opening function except `showTicketInfo`,
`viewUserDetails` and `viewUserTickets` removes any previously inserted
element with its modal id before inserting the new markup, so whenever
the document held at most one element with that id it holds exactly one
afterwards; the three exceptions insert without removal (their modals are
removed only when closed). -/
theorem modalOpeners_unique_id : ∀ o ∈ modalOpeners, ∀ doc : List String,
    (o.removesExistingFirst = true → countId doc o.modalId ≤ 1 →
      countId (openModal o doc) o.modalId = 1) ∧
    (o.removesExistingFirst = false ↔
      o.name ∈ ["showTicketInfo", "viewUserDetails", "viewUserTickets"]) := by
  have key : ∀ (i : String) (doc : List String), countId doc i ≤ 1 →
      countId (removeFirstById doc i ++ [i]) i = 1 := by
    intro i doc hle
    have h1 : countId (removeFirstById doc i ++ [i]) i
        = countId (removeFirstById doc i) i + 1 := by
      simp [countId, List.countP_append]
    rw [h1, countId_removeFirstById]
    omega
  intro o hm doc
  fin_cases hm <;>
    refine ⟨fun hrem hle => ?_, by decide⟩ <;>
      first
        | exact absurd hrem (by decide)
        | simpa [openModal] using key _ doc hle

/-- C6 witness: opening the quiz-question edit modal over a document that
already holds one such modal leaves exactly one element with its id. -/
theorem modalOpeners_unique_id_witness :
    countId
      (openModal ⟨"editQuizQuestion", "editQuizQuestionModal", true⟩
        ["editQuizQuestionModal"]) "editQuizQuestionModal" = 1 :=
  (modalOpeners_unique_id ⟨"editQuizQuestion", "editQuizQuestionModal", true⟩ (by decide)
    ["editQuizQuestionModal"]).1 rfl (by decide)

theorem infix_right_of_head_notMem {c : Char} {l A B : List Char}
    (hh : c ∉ A) (h : (c :: l) <:+: A ++ B) : (c :: l) <:+: B := by
  induction A with
  | nil => simpa using h
  | cons a A ih =>
    rw [List.cons_append, List.infix_cons_iff] at h
    rcases h with h | h
    · rcases h with ⟨t, ht⟩
      have hca : c = a := by
        have := congrArg (fun L => L.head?) ht
        simpa using this
      exact absurd (by simp [hca]) hh
    · exact ih (fun hc => hh (List.mem_cons_of_mem a hc)) h

theorem jsIncludes_append_left_of_head_notMem (base key phrase : String) (c : Char)
    (rest : List Char) (hphrase : phrase.data = c :: rest) (hc : c ∉ base.data)
    (hkey : jsIncludes key phrase = false) :
    jsIncludes (base ++ key) phrase = false := by
  unfold jsIncludes at *
  rw [decide_eq_false_iff_not] at hkey ⊢
  intro h
  rw [String.data_append, hphrase] at h
  exact hkey (hphrase ▸ infix_right_of_head_notMem hc h)

theorem jsIncludes_of_append_right (a b phrase : String)
    (h : jsIncludes b phrase = true) : jsIncludes (a ++ b) phrase = true := by
  unfold jsIncludes at *
  rw [decide_eq_true_eq] at h ⊢
  rw [String.data_append]
  exact h.trans ⟨a.data, [], by simp⟩

theorem string_append_empty (s : String) : s ++ "" = s := by
  apply String.ext
  simp [String.data_append]

/-- C8: a successful duplicate submission navigates directly into the
detail view of the key returned by the API response (not back to the
list), and its success toast mentions the scheduler update exactly when
the response's scheduled flag is true (granted the new key itself does
not spell the phrase), for the quiz and the raffle duplicate handlers. -/
theorem saveDuplicate_navigates (formValid : Bool) (resp : DuplicateResponse) :
    formValid = true →
    (∃ t, saveDuplicateQuiz formValid (.ok resp) = .succeeded t (.openQuizDetails resp.key) ∧
      (resp.scheduled = true → jsIncludes t schedulerUpdatePhrase = true) ∧
      (resp.scheduled = false → jsIncludes resp.key schedulerUpdatePhrase = false →
        jsIncludes t schedulerUpdatePhrase = false)) ∧
    (∃ t, saveDuplicateRaffle formValid (.ok resp) = .succeeded t (.openRaffleDetails resp.key) ∧
      (resp.scheduled = true → jsIncludes t schedulerUpdatePhrase = true) ∧
      (resp.scheduled = false → jsIncludes resp.key schedulerUpdatePhrase = false →
        jsIncludes t schedulerUpdatePhrase = false)) := by
  intro hfv
  subst hfv
  constructor
  · refine ⟨_, rfl, fun hs => ?_, fun hs hkey => ?_⟩
    · rw [hs]
      simp only [if_true]
      exact jsIncludes_of_append_right ("Квиз продублирован на дату " ++ resp.key)
        " (задачи обновлены)" schedulerUpdatePhrase (by decide)
    · rw [hs]
      simp only [Bool.false_eq_true, if_false, string_append_empty]
      exact jsIncludes_append_left_of_head_notMem "Квиз продублирован на дату " resp.key
        schedulerUpdatePhrase '(' "задачи обновлены)".data (by decide) (by decide) hkey
  · refine ⟨_, rfl, fun hs => ?_, fun hs hkey => ?_⟩
    · rw [hs]
      simp only [if_true]
      exact jsIncludes_of_append_right ("Розыгрыш продублирован на дату " ++ resp.key)
        " (задачи обновлены)" schedulerUpdatePhrase (by decide)
    · rw [hs]
      simp only [Bool.false_eq_true, if_false, string_append_empty]
      exact jsIncludes_append_left_of_head_notMem "Розыгрыш продублирован на дату " resp.key
        schedulerUpdatePhrase '(' "задачи обновлены)".data (by decide) (by decide) hkey

/-- C8 witness: a duplicate onto 2025-02-01 with `scheduled: true`
navigates to that date's detail view with a toast that mentions the
scheduler update. -/
theorem saveDuplicate_navigates_witness :
    ∃ t, saveDuplicateQuiz true (.ok ⟨"2025-02-01", true⟩)
        = .succeeded t (.openQuizDetails ("2025-02-01" : String)) ∧
      jsIncludes t schedulerUpdatePhrase = true := by
  obtain ⟨⟨t, heq, hsch, _⟩, _⟩ := saveDuplicate_navigates true ⟨"2025-02-01", true⟩ rfl
  exact ⟨t, heq, hsch rfl⟩

/-- C9: every delete handler (quiz, raffle, dice, quiz question, raffle
question, ticket) begins with a confirmation prompt, and a cancelled
confirmation ends the handler with that prompt as its only step: no
network call is issued and no view change happens. -/
theorem deleteHandlers_confirm_first : ∀ h ∈ deleteHandlers, ∀ p1 p2 : String,
    ∃ m rest, h.run p1 p2 false = [.confirmPrompt m] ∧
      h.run p1 p2 true = .confirmPrompt m :: rest ∧
      (h.run p1 p2 false).filter (fun st => isNetworkStep st) = [] := by
  intro h hm p1 p2
  fin_cases hm <;> exact ⟨_, _, rfl, rfl, rfl⟩

/-- C9 witness: a cancelled quiz deletion for 2025-01-10 performs zero
network calls. -/
theorem deleteHandlers_confirm_first_witness :
    (deleteQuizHandler.run "2025-01-10" "" false).filter (fun st => isNetworkStep st) = [] := by
  obtain ⟨m, rest, h1, h2, h3⟩ :=
    deleteHandlers_confirm_first deleteQuizHandler (by simp [deleteHandlers]) "2025-01-10" ""
  exact h3

/-- C4 counterexample: `runQuizAction` is one of the mutation handlers
(POST to the scheduler run endpoint) and its success path neither reloads
any view nor navigates anywhere — it only shows a toast — so the claim
fails at this handler. -/
theorem runQuizAction_counterexample :
    runQuizActionHandler ∈ mutationHandlers ∧
    isReloadOrNavigation
      (runQuizActionHandler.follow.resolve "2025-01-10" "2025-01-10") = false := by
  exact ⟨by decide, rfl⟩

/-- C4 (amended): every mutation handler's success path performs a full
view reload or a navigation — never an in-place patch of displayed
state — except the three scheduler-action handlers (`runQuizAction`,
`rescheduleQuizJobs`, `rescheduleRaffleJobs`), which only show a toast;
`approveAnswer`/`denyAnswer` navigate to the dashboard rather than the
affected raffle view, and `removeTicket` reloads the tickets page. -/
theorem mutationHandlers_reload_or_navigate (p r : String) : ∀ h ∈ mutationHandlers,
    (isReloadOrNavigation (h.follow.resolve p r) = true ∨
      h.name ∈ ["runQuizAction", "rescheduleQuizJobs", "rescheduleRaffleJobs"]) ∧
    (h.name ∈ ["runQuizAction", "rescheduleQuizJobs", "rescheduleRaffleJobs"] →
      h.follow.resolve p r = .stayToastOnly) ∧
    ((h.name = "approveAnswer" ∨ h.name = "denyAnswer") →
      h.follow.resolve p r = .loadDashboard) ∧
    (h.name = "removeTicket" → h.follow.resolve p r = .loadTicketsPage) := by
  intro h hm
  fin_cases hm <;>
    refine ⟨?_, fun h1 => ?_, fun h2 => ?_, fun h3 => ?_⟩ <;>
      first
        | exact Or.inl rfl
        | exact Or.inr (by decide)
        | rfl
        | exact absurd h1 (by decide)
        | exact absurd h3 (by decide)
        | (rcases h2 with h2 | h2 <;> exact absurd h2 (by decide))

/-- C4 witness: the `approveAnswer` entry of the handler table navigates
to the dashboard on success. -/
theorem mutationHandlers_reload_or_navigate_witness :
    FollowSpec.resolve (.always .loadDashboard) "2025-01-10" "2025-01-10"
      = AfterSuccess.loadDashboard :=
  (mutationHandlers_reload_or_navigate "2025-01-10" "2025-01-10"
    ⟨"approveAnswer", .always .loadDashboard⟩ (by decide)).2.2.1 (Or.inl rfl)

end AdminApp
